import Mathlib

/-!
Shallow embedding of the go-webp-wrap subprocess-orchestration core
(package webpbin / webpwrap): the CWebP and DWebP codec controllers,
their input/output tagged unions, option state (quality, crop), the
argument materialisation performed by Run, and the error/return
contract of Run and RunWithContext.

External collaborators are modelled as opaque data:
io.Reader, io.Writer and image.Image become identifiers (Nat); the
subprocess execution (go-binwrapper BinWrapper.Run) becomes an
ExecOutcome value supplied to Run; PNG decoding (image/png, the
PixelBridge) becomes a function parameter; createReaderFromImage
becomes a function parameter of type Img -> Except String Reader.
-/

namespace GoWebpWrap

/-- Opaque model of an io.Reader value: only identity matters. -/
abbrev Reader := Nat

/-- Opaque model of an io.Writer value: only identity matters. -/
abbrev Writer := Nat

/-- Opaque model of an image.Image value: only identity matters. -/
abbrev Img := Nat

/-- Captured byte streams (subprocess stdout). -/
abbrev Bytes := List Nat

/-- Model of the go-binwrapper BinWrapper state that the controllers
use: the accumulated argument list (Arg), the piped standard input
(StdIn) and the redirected standard output writer (SetStdOut). -/
structure BinWrapper where
  args : List String
  stdIn : Option Reader
  stdOutWriter : Option Writer
deriving DecidableEq

/-- A freshly created BinWrapper: no args, no piped stdio. -/
def BinWrapper.empty : BinWrapper :=
  { args := [], stdIn := none, stdOutWriter := none }

/-- BinWrapper.Reset: clears accumulated args and the piped stdio.
Both controllers run it via defer on every exit path of Run. -/
def BinWrapper.reset (_ : BinWrapper) : BinWrapper := BinWrapper.empty

/-- BinWrapper.Arg: appends arguments to the accumulated list. -/
def BinWrapper.addArgs (b : BinWrapper) (l : List String) : BinWrapper :=
  { b with args := b.args ++ l }

/-- BinWrapper.StdIn: pipes a reader into the subprocess stdin. -/
def BinWrapper.setStdIn (b : BinWrapper) (r : Reader) : BinWrapper :=
  { b with stdIn := some r }

/-- BinWrapper.SetStdOut: redirects subprocess stdout into a writer. -/
def BinWrapper.setStdOut (b : BinWrapper) (w : Writer) : BinWrapper :=
  { b with stdOutWriter := some w }

/-- Outcome of the one blocking subprocess execution
(BinWrapper.Run): success with captured stdout bytes, or failure with
the Go error text and the captured stderr text. -/
inductive ExecOutcome where
  | success (stdout : Bytes)
  | failure (msg : String) (stderr : String)
deriving DecidableEq

/-- cropInfo: the cropping parameters (cwebp.go). -/
structure CropInfo where
  x : Int
  y : Int
  width : Int
  height : Int
deriving DecidableEq

/-- CWebP controller state (cwebp.go): embedded BinWrapper, the three
mutually exclusive input fields, the two mutually exclusive output
fields, quality (-1 sentinel = unset) and optional crop. -/
structure CWebP where
  bw : BinWrapper
  inputFile : String
  inputImage : Option Img
  input : Option Reader
  outputFile : String
  output : Option Writer
  quality : Int
  crop : Option CropInfo
deriving DecidableEq

/-- NewCWebP: fresh controller, quality initialised to -1. -/
def newCWebP : CWebP :=
  { bw := BinWrapper.empty, inputFile := "", inputImage := none,
    input := none, outputFile := "", output := none,
    quality := -1, crop := none }

namespace CWebP

/-- CWebP.InputFile: sets the input file, clearing reader and image. -/
def InputFile (c : CWebP) (file : String) : CWebP :=
  { c with input := none, inputImage := none, inputFile := file }

/-- CWebP.Input: sets the input reader, clearing file and image. -/
def Input (c : CWebP) (reader : Reader) : CWebP :=
  { c with inputFile := "", inputImage := none, input := some reader }

/-- CWebP.InputImage: sets the input image, clearing file and reader. -/
def InputImage (c : CWebP) (img : Img) : CWebP :=
  { c with inputFile := "", input := none, inputImage := some img }

/-- CWebP.OutputFile: sets the output file, clearing the writer. -/
def OutputFile (c : CWebP) (file : String) : CWebP :=
  { c with output := none, outputFile := file }

/-- CWebP.Output: sets the output writer, clearing the file. -/
def Output (c : CWebP) (writer : Writer) : CWebP :=
  { c with outputFile := "", output := some writer }

/-- CWebP.Quality: stores the quality, clamping values above 100. -/
def Quality (c : CWebP) (quality : Nat) : CWebP :=
  { c with quality := (((if quality > 100 then 100 else quality) : Nat) : Int) }

/-- CWebP.Crop: stores the crop rectangle. -/
def Crop (c : CWebP) (x y width height : Int) : CWebP :=
  { c with crop := some { x := x, y := y, width := width, height := height } }

/-- CWebP.Reset: restores quality and crop to their defaults; does not
touch the BinWrapper or the input/output fields. -/
def Reset (c : CWebP) : CWebP :=
  { c with crop := none, quality := -1 }

/-- CWebP.getOutput: a writer yields the stdout marker, else a
non-empty output file yields that path, else Undefined output. -/
def getOutput (c : CWebP) : Except String String :=
  match c.output with
  | some _ => Except.ok ("-")
  | none =>
    if c.outputFile ≠ ("") then Except.ok c.outputFile
    else Except.error ("Undefined output")

/-- CWebP.setInput: a reader (or an image routed through
createReaderFromImage, here the parameter fromImage) appends the
end-of-options marker and stdin placeholder and pipes the reader; a
non-empty input file is appended literally; otherwise Undefined
input.  The method mutates only the embedded BinWrapper, made explicit
here as the bw argument and result. -/
def setInput (c : CWebP) (bw : BinWrapper)
    (fromImage : Img → Except String Reader) : Except String BinWrapper :=
  match c.input with
  | some r =>
      Except.ok ((bw.addArgs (["--", "-"])).setStdIn r)
  | none =>
    match c.inputImage with
    | some img =>
      match fromImage img with
      | Except.error e => Except.error e
      | Except.ok r =>
          Except.ok ((bw.addArgs (["--", "-"])).setStdIn r)
    | none =>
      if c.inputFile ≠ ("") then
        Except.ok (bw.addArgs ([c.inputFile]))
      else Except.error ("Undefined input")

end CWebP

/-- Result of one CWebP.Run: the returned Go error (none = nil), the
controller state after the deferred BinWrapper.Reset, and the argument
list handed to the subprocess (none when no subprocess was executed). -/
structure CWebPRunResult where
  err : Option String
  state : CWebP
  invoked : Option (List String)
deriving DecidableEq

namespace CWebP

/-- CWebP.Run: appends -q when quality was set, -crop when crop was
set, resolves the output (-o), resolves the input, executes, and on
failure returns the error text with the captured stderr appended after
a period; the deferred BinWrapper.Reset applies on every path. -/
def Run (c : CWebP) (fromImage : Img → Except String Reader)
    (exec : ExecOutcome) : CWebPRunResult :=
  let bw1 := if c.quality > -1 then
      c.bw.addArgs (["-q", toString c.quality])
    else c.bw
  let bw2 := match c.crop with
    | some cr =>
        bw1.addArgs (["-crop", toString cr.x, toString cr.y,
          toString cr.width, toString cr.height])
    | none => bw1
  match c.getOutput with
  | Except.error e =>
      { err := some e, state := { c with bw := bw2.reset }, invoked := none }
  | Except.ok out =>
    let bw3 := bw2.addArgs (["-o", out])
    match c.setInput bw3 fromImage with
    | Except.error e =>
        { err := some e, state := { c with bw := bw3.reset }, invoked := none }
    | Except.ok bw4 =>
      let bw5 := match c.output with
        | some w => bw4.setStdOut w
        | none => bw4
      match exec with
      | ExecOutcome.success _ =>
          { err := none, state := { c with bw := bw5.reset },
            invoked := some bw5.args }
      | ExecOutcome.failure msg st =>
          { err := some (msg ++ (". ") ++ st),
            state := { c with bw := bw5.reset },
            invoked := some bw5.args }

end CWebP

/-- DWebP controller state (dwebp.go): embedded BinWrapper, the two
mutually exclusive input fields and the two mutually exclusive output
fields. -/
structure DWebP where
  bw : BinWrapper
  inputFile : String
  input : Option Reader
  outputFile : String
  output : Option Writer
deriving DecidableEq

/-- NewDWebP: fresh controller. -/
def newDWebP : DWebP :=
  { bw := BinWrapper.empty, inputFile := "", input := none,
    outputFile := "", output := none }

namespace DWebP

/-- DWebP.InputFile: sets the input file, clearing the reader. -/
def InputFile (c : DWebP) (file : String) : DWebP :=
  { c with input := none, inputFile := file }

/-- DWebP.Input: sets the input reader, clearing the file. -/
def Input (c : DWebP) (reader : Reader) : DWebP :=
  { c with inputFile := "", input := some reader }

/-- DWebP.OutputFile: sets the output file, clearing the writer. -/
def OutputFile (c : DWebP) (file : String) : DWebP :=
  { c with output := none, outputFile := file }

/-- DWebP.Output: sets the output writer, clearing the file. -/
def Output (c : DWebP) (writer : Writer) : DWebP :=
  { c with outputFile := "", output := some writer }

/-- DWebP.getOutput: a non-empty output file yields that path,
otherwise the stdout marker; never an error. -/
def getOutput (c : DWebP) : String :=
  if c.outputFile ≠ ("") then c.outputFile else ("-")

/-- DWebP.setInput: a reader appends the end-of-options marker and
stdin placeholder and pipes the reader; a non-empty input file is
appended literally; otherwise undefined input.  The method mutates
only the embedded BinWrapper, made explicit as the bw argument and
result. -/
def setInput (c : DWebP) (bw : BinWrapper) : Except String BinWrapper :=
  match c.input with
  | some r =>
      Except.ok ((bw.addArgs (["--", "-"])).setStdIn r)
  | none =>
    if c.inputFile ≠ ("") then
      Except.ok (bw.addArgs ([c.inputFile]))
    else Except.error ("undefined input")

end DWebP

instance {ε α : Type} [DecidableEq ε] [DecidableEq α] :
    DecidableEq (Except ε α) := fun x y =>
  match x, y with
  | Except.ok a, Except.ok b =>
    if h : a = b then Decidable.isTrue (congrArg Except.ok h)
    else Decidable.isFalse (fun hc => h (Except.ok.inj hc))
  | Except.error a, Except.error b =>
    if h : a = b then Decidable.isTrue (congrArg Except.error h)
    else Decidable.isFalse (fun hc => h (Except.error.inj hc))
  | Except.ok _, Except.error _ =>
    Decidable.isFalse (fun hc => Except.noConfusion hc)
  | Except.error _, Except.ok _ =>
    Decidable.isFalse (fun hc => Except.noConfusion hc)

/-- Result of one DWebP run: the returned (image, error) pair as an
Except over Option Img — ok none models (nil, nil), ok (some img)
models (img, nil), error e models (nil, e) — the controller state
after the deferred BinWrapper.Reset, and the argument list handed to
the subprocess (none when no subprocess was executed). -/
structure DWebPRunResult where
  res : Except String (Option Img)
  state : DWebP
  invoked : Option (List String)
deriving DecidableEq

namespace DWebP

/-- DWebP.RunWithContext (dwebp.go): resolves the output (-o),
resolves the input, executes; on failure the select over the done
channel decides between the cancellation error (done already closed by
the supervisory goroutine, parameter doneClosed) and the generic
execution error carrying stderr; on success, with no output file and
no output writer the captured stdout is PNG-decoded into the returned
image, otherwise (nil, nil) is returned.  The deferred
BinWrapper.Reset applies on every path. -/
def RunWithContext (c : DWebP) (exec : ExecOutcome) (doneClosed : Bool)
    (ctxErr : String) (pngDecode : Bytes → Except String Img) :
    DWebPRunResult :=
  let out := c.getOutput
  let bw1 := c.bw.addArgs (["-o", out])
  match c.setInput bw1 with
  | Except.error e =>
      { res := Except.error (("failed to set input: ") ++ e),
        state := { c with bw := bw1.reset }, invoked := none }
  | Except.ok bw2 =>
    let bw3 := match c.output with
      | some w => bw2.setStdOut w
      | none => bw2
    match exec with
    | ExecOutcome.failure msg st =>
      if doneClosed then
        { res := Except.error (("operation cancelled: ") ++ ctxErr),
          state := { c with bw := bw3.reset }, invoked := some bw3.args }
      else
        { res := Except.error (("dwebp command failed: ") ++ msg
            ++ (". stderr: ") ++ st),
          state := { c with bw := bw3.reset }, invoked := some bw3.args }
    | ExecOutcome.success stdout =>
      if c.output = none ∧ c.outputFile = ("") then
        match pngDecode stdout with
        | Except.error e =>
            { res := Except.error (("failed to decode PNG output: ") ++ e),
              state := { c with bw := bw3.reset },
              invoked := some bw3.args }
        | Except.ok img =>
            { res := Except.ok (some img),
              state := { c with bw := bw3.reset },
              invoked := some bw3.args }
      else
        { res := Except.ok none,
          state := { c with bw := bw3.reset }, invoked := some bw3.args }

/-- DWebP.Run (dwebp.go): delegates to RunWithContext with the
background context, which is never done, so the done channel is never
closed and the context error is empty. -/
def Run (c : DWebP) (exec : ExecOutcome)
    (pngDecode : Bytes → Except String Img) : DWebPRunResult :=
  c.RunWithContext exec false ("") pngDecode

/-- The historical context-free DWebP setInput variant: identical to
setInput except that the undefined-input error is capitalised. -/
def setInputNoContext (c : DWebP) (bw : BinWrapper) :
    Except String BinWrapper :=
  match c.input with
  | some r =>
      Except.ok ((bw.addArgs (["--", "-"])).setStdIn r)
  | none =>
    if c.inputFile ≠ ("") then
      Except.ok (bw.addArgs ([c.inputFile]))
    else Except.error ("Undefined input")

/-- The historical context-free DWebP.Run variant: same output
resolution and return asymmetry, undefined-input error unwrapped, exec
failure reported as the error text with stderr appended after a
period, PNG decode result returned directly. -/
def RunNoContext (c : DWebP) (exec : ExecOutcome)
    (pngDecode : Bytes → Except String Img) : DWebPRunResult :=
  let out := c.getOutput
  let bw1 := c.bw.addArgs (["-o", out])
  match c.setInputNoContext bw1 with
  | Except.error e =>
      { res := Except.error e,
        state := { c with bw := bw1.reset }, invoked := none }
  | Except.ok bw2 =>
    let bw3 := match c.output with
      | some w => bw2.setStdOut w
      | none => bw2
    match exec with
    | ExecOutcome.failure msg st =>
        { res := Except.error (msg ++ (". ") ++ st),
          state := { c with bw := bw3.reset }, invoked := some bw3.args }
    | ExecOutcome.success stdout =>
      if c.output = none ∧ c.outputFile = ("") then
        match pngDecode stdout with
        | Except.error e =>
            { res := Except.error e,
              state := { c with bw := bw3.reset },
              invoked := some bw3.args }
        | Except.ok img =>
            { res := Except.ok (some img),
              state := { c with bw := bw3.reset },
              invoked := some bw3.args }
      else
        { res := Except.ok none,
          state := { c with bw := bw3.reset }, invoked := some bw3.args }

end DWebP

/-- State of the cancellation supervisory goroutine spawned by
DWebP.RunWithContext: it blocks receiving from the context's Done
channel, and only after that receive completes does it kill the
subprocess and close the done channel, reaching its end. -/
inductive SupervisorState where
  | waitingOnCtx
  | retired
deriving DecidableEq

/-- Eventual state of the supervisory goroutine of one
DWebP.RunWithContext call, as a function of whether the context ever
becomes done: the goroutine body is a receive from ctx.Done() followed
by Kill and close(done), so it terminates precisely when the context
eventually becomes done; RunWithContext itself performs no blocking
join on the done channel before returning (the only read of done is
the non-blocking select in the error branch). -/
def supervisorEventualState (ctxEventuallyDone : Bool) : SupervisorState :=
  if ctxEventuallyDone then SupervisorState.retired
  else SupervisorState.waitingOnCtx

/-- The done-channel observation made by the non-blocking select in
DWebP.RunWithContext's error branch, as a function of the schedule:
after the context is cancelled the supervisory goroutine runs Kill and
then close(done), and the select sees the done channel closed only if
close(done) has already executed; no synchronization orders
close(done) before the select, so the observation requires both that
the context was cancelled before BinWrapper.Run returned
(ctxCancelled) and that the goroutine's close step was scheduled
before the select (closeBeforeSelect). -/
def doneObserved (ctxCancelled closeBeforeSelect : Bool) : Bool :=
  ctxCancelled && closeBeforeSelect

/-- DWebP.RunWithContext under an explicit schedule of the race
between the supervisory goroutine and the error branch's select:
ctxCancelled says the context was cancelled before the subprocess
execution returned; closeBeforeSelect says close(done) executed before
the select ran. -/
def DWebP.RunWithContextSched (c : DWebP) (exec : ExecOutcome)
    (ctxCancelled closeBeforeSelect : Bool) (ctxErr : String)
    (pngDecode : Bytes → Except String Img) : DWebPRunResult :=
  c.RunWithContext exec (doneObserved ctxCancelled closeBeforeSelect)
    ctxErr pngDecode

/-- One call to a CWebP input or output setter, with its argument. -/
inductive CWSetter where
  | inFile (f : String)
  | inReader (r : Reader)
  | inImage (m : Img)
  | outFile (f : String)
  | outWriter (w : Writer)
deriving DecidableEq

/-- Applies one setter call to a CWebP controller. -/
def CWSetter.apply : CWSetter → CWebP → CWebP
  | CWSetter.inFile f, c => c.InputFile f
  | CWSetter.inReader r, c => c.Input r
  | CWSetter.inImage m, c => c.InputImage m
  | CWSetter.outFile f, c => c.OutputFile f
  | CWSetter.outWriter w, c => c.Output w

/-- Applies a sequence of setter calls, left to right. -/
def applyAllC (l : List CWSetter) (c : CWebP) : CWebP :=
  l.foldl (fun s op => op.apply s) c

/-- Number of non-empty input variant fields of a CWebP controller. -/
def inputCountC (c : CWebP) : Nat :=
  (if c.inputFile ≠ ("") then 1 else 0)
    + (if c.input.isSome then 1 else 0)
    + (if c.inputImage.isSome then 1 else 0)

/-- Number of non-empty output variant fields of a CWebP controller. -/
def outputCountC (c : CWebP) : Nat :=
  (if c.outputFile ≠ ("") then 1 else 0)
    + (if c.output.isSome then 1 else 0)

/-- One call to a DWebP input or output setter, with its argument. -/
inductive DWSetter where
  | inFile (f : String)
  | inReader (r : Reader)
  | outFile (f : String)
  | outWriter (w : Writer)
deriving DecidableEq

/-- Applies one setter call to a DWebP controller. -/
def DWSetter.apply : DWSetter → DWebP → DWebP
  | DWSetter.inFile f, c => c.InputFile f
  | DWSetter.inReader r, c => c.Input r
  | DWSetter.outFile f, c => c.OutputFile f
  | DWSetter.outWriter w, c => c.Output w

/-- Applies a sequence of setter calls, left to right. -/
def applyAllD (l : List DWSetter) (c : DWebP) : DWebP :=
  l.foldl (fun s op => op.apply s) c

/-- Number of non-empty input variant fields of a DWebP controller. -/
def inputCountD (c : DWebP) : Nat :=
  (if c.inputFile ≠ ("") then 1 else 0)
    + (if c.input.isSome then 1 else 0)

/-- Number of non-empty output variant fields of a DWebP controller. -/
def outputCountD (c : DWebP) : Nat :=
  (if c.outputFile ≠ ("") then 1 else 0)
    + (if c.output.isSome then 1 else 0)

/-- Encoder (encoder.go): holds the compression quality for the
in-process encode API. -/
structure Encoder where
  quality : Nat
deriving DecidableEq

/-- Encoder.EncodeWithContext (encoder.go): builds the controller
NewCWebP().Quality(e.Quality).InputImage(m).Output(w) and runs it. -/
def Encoder.EncodeWithContext (e : Encoder) (w : Writer) (m : Img)
    (fromImage : Img → Except String Reader) (exec : ExecOutcome) :
    CWebPRunResult :=
  ((((newCWebP).Quality e.quality).InputImage m).Output w).Run fromImage exec

/-- The package-level EncodeWithContext convenience function
(encoder.go): constructs an Encoder with Quality 75 and delegates. -/
def packageEncoder : Encoder := { quality := 75 }

/-- The package-level Encode convenience call: delegates to the
package-level EncodeWithContext, hence runs packageEncoder. -/
def packageEncode (w : Writer) (m : Img)
    (fromImage : Img → Except String Reader) (exec : ExecOutcome) :
    CWebPRunResult :=
  packageEncoder.EncodeWithContext w m fromImage exec

/-! Theorems -/

/-- C6: for every quality value q, Quality(q) on a CWebP controller
stores min(q, 100): values above 100 are silently clamped to 100 and
never rejected, values in [0,100] are stored unchanged. -/
theorem cwebp_quality_clamped (c : CWebP) (q : Nat) :
    (c.Quality q).quality = (((min q 100) : Nat) : Int) ∧
    (q ≤ 100 → (c.Quality q).quality = ((q : Nat) : Int)) ∧
    (100 < q → (c.Quality q).quality = 100) := by
  refine ⟨?_, ?_, ?_⟩ <;>
    simp only [CWebP.Quality] <;> intros <;> split <;> push_cast <;> omega

/-- Witness for C6 at q = 50 and q = 200. -/
theorem cwebp_quality_clamped_witness :
    (newCWebP.Quality 50).quality = ((50 : Nat) : Int) ∧
    (newCWebP.Quality 200).quality = 100 :=
  ⟨(cwebp_quality_clamped newCWebP 50).2.1 (by decide),
   (cwebp_quality_clamped newCWebP 200).2.2 (by decide)⟩

/-- C2 counterexample: a CWebP controller with quality 50 and crop
(1,2,3,4) set, after a successful Run, still holds quality 50 and the
crop — Run does not restore the option fields to their defaults
(quality -1, crop nil); the deferred reset only clears the embedded
BinWrapper. -/
theorem cwebp_run_not_reset_counterexample :
    ((((((newCWebP).Quality 50).Crop 1 2 3 4).Input 7).Output 9).Run
        (fun _ => Except.ok 0) (ExecOutcome.success [])).state.quality = 50 ∧
    ((((((newCWebP).Quality 50).Crop 1 2 3 4).Input 7).Output 9).Run
        (fun _ => Except.ok 0) (ExecOutcome.success [])).state.crop =
      some { x := 1, y := 2, width := 3, height := 4 } ∧
    ¬ ((((((newCWebP).Quality 50).Crop 1 2 3 4).Input 7).Output 9).Run
        (fun _ => Except.ok 0) (ExecOutcome.success [])).state.quality = -1 := by
  decide

/-- C2 amended: Run never changes quality or crop (they persist across
the call, for every outcome); only the embedded BinWrapper is reset by
the deferred call, and only an explicit Reset() restores quality to -1
and crop to nil while leaving the BinWrapper untouched. -/
theorem cwebp_run_preserves_options (c : CWebP)
    (fI : Img → Except String Reader) (ex : ExecOutcome) :
    (c.Run fI ex).state.quality = c.quality ∧
    (c.Run fI ex).state.crop = c.crop ∧
    (c.Run fI ex).state.bw = BinWrapper.empty ∧
    c.Reset.quality = -1 ∧ c.Reset.crop = none ∧ c.Reset.bw = c.bw := by
  obtain ⟨bw, inF, inI, inR, outF, outW, qual, cr⟩ := c
  refine ⟨?_, ?_, ?_, rfl, rfl, rfl⟩ <;>
    · simp only [CWebP.Run, CWebP.getOutput, CWebP.setInput,
        BinWrapper.reset]
      repeat' split
      all_goals rfl

/-- C9 (evaluating the code at the failing input): with a context that
is never done — in particular the background context used by Run — the
supervisory goroutine never gets past its receive from ctx.Done() and
is never retired, even though the call itself completes successfully;
the watcher outlives the call. -/
theorem dwebp_supervisor_not_retired :
    supervisorEventualState false = SupervisorState.waitingOnCtx ∧
    supervisorEventualState false ≠ SupervisorState.retired ∧
    (((newDWebP).Input 3).Run (ExecOutcome.success [0])
        (fun _ => Except.ok 5)).res = Except.ok (some 5) := by
  decide

/-- Helper: one CWebP setter call keeps each union at most singly
occupied: its own union ends with at most one non-empty field, and the
other union is untouched. -/
lemma cwSetter_step (s : CWSetter) (c : CWebP) :
    (inputCountC c ≤ 1 → inputCountC (s.apply c) ≤ 1) ∧
    (outputCountC c ≤ 1 → outputCountC (s.apply c) ≤ 1) := by
  cases s <;>
    simp only [CWSetter.apply, CWebP.InputFile, CWebP.Input,
      CWebP.InputImage, CWebP.OutputFile, CWebP.Output,
      inputCountC, outputCountC] <;>
    constructor <;> intro h <;> simp_all <;> split <;> omega

/-- Helper: a sequence of CWebP setter calls preserves the at-most-one
invariant of both unions. -/
lemma applyAllC_invariant (l : List CWSetter) (c : CWebP)
    (h1 : inputCountC c ≤ 1) (h2 : outputCountC c ≤ 1) :
    inputCountC (applyAllC l c) ≤ 1 ∧ outputCountC (applyAllC l c) ≤ 1 := by
  induction l generalizing c with
  | nil => exact ⟨h1, h2⟩
  | cons s t ih =>
    exact ih (s.apply c) ((cwSetter_step s c).1 h1) ((cwSetter_step s c).2 h2)

/-- Helper: one DWebP setter call keeps each union at most singly
occupied. -/
lemma dwSetter_step (s : DWSetter) (c : DWebP) :
    (inputCountD c ≤ 1 → inputCountD (s.apply c) ≤ 1) ∧
    (outputCountD c ≤ 1 → outputCountD (s.apply c) ≤ 1) := by
  cases s <;>
    simp only [DWSetter.apply, DWebP.InputFile, DWebP.Input,
      DWebP.OutputFile, DWebP.Output, inputCountD, outputCountD] <;>
    constructor <;> intro h <;> simp_all <;> split <;> omega

/-- Helper: a sequence of DWebP setter calls preserves the at-most-one
invariant of both unions. -/
lemma applyAllD_invariant (l : List DWSetter) (c : DWebP)
    (h1 : inputCountD c ≤ 1) (h2 : outputCountD c ≤ 1) :
    inputCountD (applyAllD l c) ≤ 1 ∧ outputCountD (applyAllD l c) ≤ 1 := by
  induction l generalizing c with
  | nil => exact ⟨h1, h2⟩
  | cons s t ih =>
    exact ih (s.apply c) ((dwSetter_step s c).1 h1) ((dwSetter_step s c).2 h2)

/-- C3: on CWebP and DWebP controllers each input setter clears the
other input variants and each output setter clears the other output
variant, so after any finite sequence of setter calls on a freshly
constructed controller at most one input variant field and at most one
output variant field is non-empty, and the last setter called is the
single active variant of its union. -/
theorem setter_union_exclusive :
    (inputCountC newCWebP ≤ 1 ∧ outputCountC newCWebP ≤ 1) ∧
    (∀ (s : CWSetter) (c : CWebP),
      (inputCountC c ≤ 1 → inputCountC (s.apply c) ≤ 1) ∧
      (outputCountC c ≤ 1 → outputCountC (s.apply c) ≤ 1)) ∧
    (∀ l : List CWSetter,
      inputCountC (applyAllC l newCWebP) ≤ 1 ∧
      outputCountC (applyAllC l newCWebP) ≤ 1) ∧
    (∀ (c : CWebP) (f : String), (c.InputFile f).inputFile = f ∧
      (c.InputFile f).input = none ∧ (c.InputFile f).inputImage = none) ∧
    (∀ (c : CWebP) (r : Reader), (c.Input r).input = some r ∧
      (c.Input r).inputFile = ("") ∧ (c.Input r).inputImage = none) ∧
    (∀ (c : CWebP) (m : Img), (c.InputImage m).inputImage = some m ∧
      (c.InputImage m).inputFile = ("") ∧ (c.InputImage m).input = none) ∧
    (∀ (c : CWebP) (f : String), (c.OutputFile f).outputFile = f ∧
      (c.OutputFile f).output = none) ∧
    (∀ (c : CWebP) (w : Writer), (c.Output w).output = some w ∧
      (c.Output w).outputFile = ("")) ∧
    (inputCountD newDWebP ≤ 1 ∧ outputCountD newDWebP ≤ 1) ∧
    (∀ (s : DWSetter) (c : DWebP),
      (inputCountD c ≤ 1 → inputCountD (s.apply c) ≤ 1) ∧
      (outputCountD c ≤ 1 → outputCountD (s.apply c) ≤ 1)) ∧
    (∀ l : List DWSetter,
      inputCountD (applyAllD l newDWebP) ≤ 1 ∧
      outputCountD (applyAllD l newDWebP) ≤ 1) ∧
    (∀ (c : DWebP) (f : String), (c.InputFile f).inputFile = f ∧
      (c.InputFile f).input = none) ∧
    (∀ (c : DWebP) (r : Reader), (c.Input r).input = some r ∧
      (c.Input r).inputFile = ("")) ∧
    (∀ (c : DWebP) (f : String), (c.OutputFile f).outputFile = f ∧
      (c.OutputFile f).output = none) ∧
    (∀ (c : DWebP) (w : Writer), (c.Output w).output = some w ∧
      (c.Output w).outputFile = ("")) := by
  refine ⟨by decide, cwSetter_step, ?_, ?_, ?_, ?_, ?_, ?_,
    by decide, dwSetter_step, ?_, ?_, ?_, ?_, ?_⟩
  · intro l
    exact applyAllC_invariant l newCWebP (by decide) (by decide)
  · intro c f
    exact ⟨rfl, rfl, rfl⟩
  · intro c r
    exact ⟨rfl, rfl, rfl⟩
  · intro c m
    exact ⟨rfl, rfl, rfl⟩
  · intro c f
    exact ⟨rfl, rfl⟩
  · intro c w
    exact ⟨rfl, rfl⟩
  · intro l
    exact applyAllD_invariant l newDWebP (by decide) (by decide)
  · intro c f
    exact ⟨rfl, rfl⟩
  · intro c r
    exact ⟨rfl, rfl⟩
  · intro c f
    exact ⟨rfl, rfl⟩
  · intro c w
    exact ⟨rfl, rfl⟩

/-- Witness for C3: the spec's file-then-stream-then-image sequence
applied to a fresh controller, through the theorem at that concrete
input. -/
theorem setter_union_exclusive_witness :
    inputCountC (applyAllC ([CWSetter.inFile ("a.png"), CWSetter.inReader 3,
      CWSetter.inImage 5]) newCWebP) ≤ 1 ∧
    inputCountC (CWSetter.apply (CWSetter.inReader 3) newCWebP) ≤ 1 :=
  ⟨(setter_union_exclusive.2.2.1 ([CWSetter.inFile ("a.png"),
      CWSetter.inReader 3, CWSetter.inImage 5])).1,
   ((setter_union_exclusive.2.1 (CWSetter.inReader 3) newCWebP).1)
     (by decide)⟩

/-- C5: with quality q set, crop (x,y,w,h) set and an output resolved
to outStr, the materialized argument sequence is exactly -q q, -crop x
y w h, -o outStr, then for a stream or in-memory-image input the
end-of-options marker and stdin placeholder, or for a file input the
literal path appended last; with quality at the -1 sentinel the -q
flag is absent, and with crop unset the -crop flag is absent. -/
theorem cwebp_arg_order
    (c : CWebP) (fI : Img → Except String Reader) (ex : ExecOutcome)
    (q : Nat) (x y w h : Int) (r : Reader) (outStr : String)
    (hbw : c.bw = BinWrapper.empty)
    (hout : c.getOutput = Except.ok outStr) :
    (c.quality = ((q : Nat) : Int) → c.crop = some ⟨x, y, w, h⟩ →
      c.input = some r →
      (c.Run fI ex).invoked = some (["-q", toString ((q : Nat) : Int),
        "-crop", toString x, toString y, toString w, toString h,
        "-o", outStr, "--", "-"])) ∧
    (∀ f : String, c.quality = ((q : Nat) : Int) →
      c.crop = some ⟨x, y, w, h⟩ → c.input = none → c.inputImage = none →
      c.inputFile = f → ¬ f = ("") →
      (c.Run fI ex).invoked = some (["-q", toString ((q : Nat) : Int),
        "-crop", toString x, toString y, toString w, toString h,
        "-o", outStr, f])) ∧
    (∀ m : Img, c.quality = ((q : Nat) : Int) →
      c.crop = some ⟨x, y, w, h⟩ → c.input = none → c.inputImage = some m →
      fI m = Except.ok r →
      (c.Run fI ex).invoked = some (["-q", toString ((q : Nat) : Int),
        "-crop", toString x, toString y, toString w, toString h,
        "-o", outStr, "--", "-"])) ∧
    (c.quality = -1 → c.crop = some ⟨x, y, w, h⟩ → c.input = some r →
      (c.Run fI ex).invoked = some (["-crop", toString x, toString y,
        toString w, toString h, "-o", outStr, "--", "-"])) ∧
    (c.quality = ((q : Nat) : Int) → c.crop = none → c.input = some r →
      (c.Run fI ex).invoked = some (["-q", toString ((q : Nat) : Int),
        "-o", outStr, "--", "-"])) := by
  have hq1 : ((q : Nat) : Int) > -1 := by omega
  have hq2 : ¬ ((-1 : Int) > -1) := by omega
  refine ⟨?_, ?_, ?_, ?_, ?_⟩
  · intro hq hcr hin
    cases hco : c.output <;> cases ex <;>
      simp [CWebP.Run, CWebP.setInput, BinWrapper.addArgs,
        BinWrapper.setStdIn, BinWrapper.setStdOut, BinWrapper.empty,
        hbw, hq, hcr, hin, hco, hout, hq1]
  · intro f hq hcr hin hii hif hf
    cases hco : c.output <;> cases ex <;>
      simp [CWebP.Run, CWebP.setInput, BinWrapper.addArgs,
        BinWrapper.setStdIn, BinWrapper.setStdOut, BinWrapper.empty,
        hbw, hq, hcr, hin, hii, hif, hf, hco, hout, hq1]
  · intro m hq hcr hin hii hfi
    cases hco : c.output <;> cases ex <;>
      simp [CWebP.Run, CWebP.setInput, BinWrapper.addArgs,
        BinWrapper.setStdIn, BinWrapper.setStdOut, BinWrapper.empty,
        hbw, hq, hcr, hin, hii, hfi, hco, hout, hq1]
  · intro hq hcr hin
    cases hco : c.output <;> cases ex <;>
      simp [CWebP.Run, CWebP.setInput, BinWrapper.addArgs,
        BinWrapper.setStdIn, BinWrapper.setStdOut, BinWrapper.empty,
        hbw, hq, hcr, hin, hco, hout, hq2]
  · intro hq hcr hin
    cases hco : c.output <;> cases ex <;>
      simp [CWebP.Run, CWebP.setInput, BinWrapper.addArgs,
        BinWrapper.setStdIn, BinWrapper.setStdOut, BinWrapper.empty,
        hbw, hq, hcr, hin, hco, hout, hq1]

/-- Witness for C5: a fresh controller with quality 80, crop
(1,2,3,4), stream input 7 and writer output 9 materializes exactly the
claimed sequence. -/
theorem cwebp_arg_order_witness :
    (((((newCWebP.Quality 80).Crop 1 2 3 4).Input 7).Output 9).Run
        (fun _ => Except.ok 0) (ExecOutcome.success [])).invoked =
      some (["-q", toString ((80 : Nat) : Int), "-crop", toString (1 : Int),
        toString (2 : Int), toString (3 : Int), toString (4 : Int),
        "-o", "-", "--", "-"]) :=
  (cwebp_arg_order ((((newCWebP.Quality 80).Crop 1 2 3 4).Input 7).Output 9)
    (fun _ => Except.ok 0) (ExecOutcome.success []) 80 1 2 3 4 7 ("-")
    (by decide) (by decide)).1 (by decide) (by decide) (by decide)

/-- C4 counterexample: a CWebP controller with no input variant set
(and no output either — the freshly constructed controller) does not
return the undefined-input configuration error: Run validates the
output first and returns Undefined output. -/
theorem cwebp_no_input_error_counterexample :
    newCWebP.input = none ∧ newCWebP.inputImage = none ∧
    newCWebP.inputFile = ("") ∧
    ((newCWebP).Run (fun _ => Except.ok 0) (ExecOutcome.success [])).err =
      some ("Undefined output") ∧
    ¬ ((newCWebP).Run (fun _ => Except.ok 0) (ExecOutcome.success [])).err =
      some ("Undefined input") := by
  decide

/-- C4 amended: CWebP.Run validates the output before the input, so a
controller with no input variant and a configured output fails with
Undefined input and no subprocess execution; a controller with neither
output file nor writer fails with Undefined output and no subprocess
execution (whatever its input); DWebP with no input variant fails with
the undefined-input error and no subprocess execution (in both the
context-aware and the historical context-free Run), and DWebP has no
undefined-output error. -/
theorem config_errors_before_exec
    (c : CWebP) (d : DWebP) (fI : Img → Except String Reader)
    (ex : ExecOutcome) (dc : Bool) (cerr : String)
    (png : Bytes → Except String Img) :
    (c.input = none → c.inputImage = none → c.inputFile = ("") →
      (c.output.isSome ∨ ¬ c.outputFile = ("")) →
      (c.Run fI ex).err = some ("Undefined input") ∧
      (c.Run fI ex).invoked = none) ∧
    (c.output = none → c.outputFile = ("") →
      (c.Run fI ex).err = some ("Undefined output") ∧
      (c.Run fI ex).invoked = none) ∧
    (d.input = none → d.inputFile = ("") →
      (d.RunWithContext ex dc cerr png).res =
        Except.error ("failed to set input: undefined input") ∧
      (d.RunWithContext ex dc cerr png).invoked = none) ∧
    (d.input = none → d.inputFile = ("") →
      (d.RunNoContext ex png).res = Except.error ("Undefined input") ∧
      (d.RunNoContext ex png).invoked = none) := by
  refine ⟨?_, ?_, ?_, ?_⟩
  · intro h1 h2 h3 h4
    cases hco : c.output with
    | some w =>
      constructor <;>
        simp [CWebP.Run, CWebP.getOutput, CWebP.setInput, h1, h2, h3, hco]
    | none =>
      have hof : ¬ c.outputFile = ("") := by
        rcases h4 with h4 | h4
        · rw [hco] at h4
          exact absurd h4 (by simp)
        · exact h4
      constructor <;>
        simp [CWebP.Run, CWebP.getOutput, CWebP.setInput, h1, h2, h3,
          hco, hof]
  · intro h1 h2
    constructor <;> simp [CWebP.Run, CWebP.getOutput, h1, h2]
  · intro h1 h2
    constructor <;>
      simp [DWebP.RunWithContext, DWebP.setInput, DWebP.getOutput, h1, h2]
  · intro h1 h2
    constructor <;>
      simp [DWebP.RunNoContext, DWebP.setInputNoContext, DWebP.getOutput,
        h1, h2]

/-- Witness for C4 (amended): a controller with only a writer output
set fails with Undefined input; a fresh controller fails with
Undefined output; a fresh DWebP fails with the undefined-input
error. -/
theorem config_errors_before_exec_witness :
    ((newCWebP.Output 9).Run (fun _ => Except.ok 0)
        (ExecOutcome.success [])).err = some ("Undefined input") ∧
    ((newCWebP).Run (fun _ => Except.ok 0)
        (ExecOutcome.success [])).err = some ("Undefined output") ∧
    ((newDWebP).RunWithContext (ExecOutcome.success []) false ("")
        (fun _ => Except.ok 0)).res =
      Except.error ("failed to set input: undefined input") ∧
    ((newDWebP).RunNoContext (ExecOutcome.success [])
        (fun _ => Except.ok 0)).res = Except.error ("Undefined input") :=
  ⟨((config_errors_before_exec (newCWebP.Output 9) newDWebP
      (fun _ => Except.ok 0) (ExecOutcome.success []) false ("")
      (fun _ => Except.ok 0)).1 (by decide) (by decide) (by decide)
      (Or.inl (by decide))).1,
   ((config_errors_before_exec newCWebP newDWebP
      (fun _ => Except.ok 0) (ExecOutcome.success []) false ("")
      (fun _ => Except.ok 0)).2.1 (by decide) (by decide)).1,
   ((config_errors_before_exec newCWebP newDWebP
      (fun _ => Except.ok 0) (ExecOutcome.success []) false ("")
      (fun _ => Except.ok 0)).2.2.1 (by decide) (by decide)).1,
   ((config_errors_before_exec newCWebP newDWebP
      (fun _ => Except.ok 0) (ExecOutcome.success []) false ("")
      (fun _ => Except.ok 0)).2.2.2 (by decide) (by decide)).1⟩

/-- C7: whenever the subprocess was actually invoked and failed (and,
for DWebP, no cancellation was observed), the returned error text is
exactly the underlying execution error followed by the captured stderr
text verbatim: CWebP appends stderr after a period, DWebP appends it
after a stderr label; in both cases the stderr text is a verbatim
suffix appearing after the execution error. -/
theorem run_error_embeds_stderr
    (c : CWebP) (d : DWebP) (fI : Img → Except String Reader)
    (msg st cerr : String) (png : Bytes → Except String Img) :
    ((c.Run fI (ExecOutcome.failure msg st)).invoked.isSome →
      (c.Run fI (ExecOutcome.failure msg st)).err =
        some ((msg ++ (". ")) ++ st) ∧
      ∃ p, (c.Run fI (ExecOutcome.failure msg st)).err = some (p ++ st)) ∧
    ((d.RunWithContext (ExecOutcome.failure msg st) false cerr png).invoked.isSome →
      (d.RunWithContext (ExecOutcome.failure msg st) false cerr png).res =
        Except.error (((("dwebp command failed: ") ++ msg) ++ (". stderr: ")) ++ st) ∧
      ∃ p, (d.RunWithContext (ExecOutcome.failure msg st) false cerr png).res =
        Except.error (p ++ st)) := by
  constructor
  · intro hc
    have he : (c.Run fI (ExecOutcome.failure msg st)).err =
        some ((msg ++ (". ")) ++ st) := by
      cases hgo : c.getOutput with
      | error e => simp [CWebP.Run, hgo] at hc
      | ok out =>
        cases hin : c.input with
        | some r =>
          cases hco : c.output <;>
            simp [CWebP.Run, CWebP.setInput, hgo, hin, hco]
        | none =>
          cases hii : c.inputImage with
          | some m =>
            cases hfi : fI m with
            | error e =>
              simp [CWebP.Run, CWebP.setInput, hgo, hin, hii, hfi] at hc
            | ok r =>
              cases hco : c.output <;>
                simp [CWebP.Run, CWebP.setInput, hgo, hin, hii, hfi, hco]
          | none =>
            by_cases hif : c.inputFile = ("")
            · simp [CWebP.Run, CWebP.setInput, hgo, hin, hii, hif] at hc
            · cases hco : c.output <;>
                simp [CWebP.Run, CWebP.setInput, hgo, hin, hii, hif, hco]
    exact ⟨he, ⟨msg ++ (". "), he⟩⟩
  · intro hd
    have he : (d.RunWithContext (ExecOutcome.failure msg st) false cerr png).res =
        Except.error (((("dwebp command failed: ") ++ msg) ++ (". stderr: ")) ++ st) := by
      cases hin : d.input with
      | some r =>
        cases hco : d.output <;>
          simp [DWebP.RunWithContext, DWebP.setInput, hin, hco]
      | none =>
        by_cases hif : d.inputFile = ("")
        · simp [DWebP.RunWithContext, DWebP.setInput, hin, hif] at hd
        · cases hco : d.output <;>
            simp [DWebP.RunWithContext, DWebP.setInput, hin, hif, hco]
    exact ⟨he, ⟨(("dwebp command failed: ") ++ msg) ++ (". stderr: "), he⟩⟩

/-- Witness for C7: a configured CWebP run and a configured DWebP run
that fail with error text boom and stderr text badcrop. -/
theorem run_error_embeds_stderr_witness :
    (((newCWebP.Input 7).Output 9).Run (fun _ => Except.ok 0)
        (ExecOutcome.failure ("boom") ("badcrop"))).err =
      some ((("boom") ++ (". ")) ++ ("badcrop")) ∧
    ((newDWebP.Input 7).RunWithContext
        (ExecOutcome.failure ("boom") ("badcrop")) false ("")
        (fun _ => Except.ok 0)).res =
      Except.error (((("dwebp command failed: ") ++ ("boom")) ++ (". stderr: "))
        ++ ("badcrop")) :=
  ⟨((run_error_embeds_stderr ((newCWebP.Input 7).Output 9) (newDWebP.Input 7)
      (fun _ => Except.ok 0) ("boom") ("badcrop") ("")
      (fun _ => Except.ok 0)).1 (by decide)).1,
   ((run_error_embeds_stderr ((newCWebP.Input 7).Output 9) (newDWebP.Input 7)
      (fun _ => Except.ok 0) ("boom") ("badcrop") ("")
      (fun _ => Except.ok 0)).2 (by decide)).1⟩

/-- C8 counterexample: a configured DWebP run whose context is
cancelled before the subprocess execution returns (ctxCancelled =
true) but whose supervisory goroutine has not yet executed close(done)
when the non-blocking select runs (closeBeforeSelect = false) returns
the generic stderr-carrying execution error, not the cancellation
error — nothing in the code orders close(done) before the select, so
this schedule is reachable. -/
theorem cancellation_race_counterexample :
    ((newDWebP.Input 7).RunWithContextSched
        (ExecOutcome.failure ("signal: killed") ("some stderr")) true false
        ("context canceled") (fun _ => Except.ok 0)).res =
      Except.error (("dwebp command failed: ") ++ ("signal: killed")
        ++ (". stderr: ") ++ ("some stderr")) ∧
    ¬ ((newDWebP.Input 7).RunWithContextSched
        (ExecOutcome.failure ("signal: killed") ("some stderr")) true false
        ("context canceled") (fun _ => Except.ok 0)).res =
      Except.error (("operation cancelled: ") ++ ("context canceled")) := by
  decide

/-- C8 amended: the returned error is the cancellation error wrapping
the context's error exactly when the select observes the done channel
closed — the context was cancelled AND the supervisory goroutine's
close(done) was scheduled before the select; the error is then
independent of the execution error text and stderr.  When the close
was not yet observed — even though the context was cancelled before
the execution returned — or the context was never cancelled, the
generic stderr-carrying execution error is returned instead. -/
theorem cancellation_observed_preferred
    (d : DWebP) (msg st msg2 st2 cerr : String) (cc sched : Bool)
    (png : Bytes → Except String Img) :
    ((d.RunWithContextSched (ExecOutcome.failure msg st) true true
        cerr png).invoked.isSome →
      (d.RunWithContextSched (ExecOutcome.failure msg st) true true
        cerr png).res = Except.error (("operation cancelled: ") ++ cerr)) ∧
    ((d.RunWithContextSched (ExecOutcome.failure msg st) true true
        cerr png).res =
      (d.RunWithContextSched (ExecOutcome.failure msg2 st2) true true
        cerr png).res) ∧
    ((d.RunWithContextSched (ExecOutcome.failure msg st) cc false
        cerr png).invoked.isSome →
      (d.RunWithContextSched (ExecOutcome.failure msg st) cc false
        cerr png).res = Except.error ((("dwebp command failed: ") ++ msg)
          ++ (". stderr: ") ++ st)) ∧
    ((d.RunWithContextSched (ExecOutcome.failure msg st) false sched
        cerr png).invoked.isSome →
      (d.RunWithContextSched (ExecOutcome.failure msg st) false sched
        cerr png).res = Except.error ((("dwebp command failed: ") ++ msg)
          ++ (". stderr: ") ++ st)) := by
  refine ⟨?_, ?_, ?_, ?_⟩
  · intro hd
    cases hin : d.input with
    | some r =>
      cases hco : d.output <;>
        simp [DWebP.RunWithContextSched, doneObserved, DWebP.RunWithContext,
          DWebP.setInput, hin, hco]
    | none =>
      by_cases hif : d.inputFile = ("")
      · simp [DWebP.RunWithContextSched, doneObserved, DWebP.RunWithContext,
          DWebP.setInput, hin, hif] at hd
      · cases hco : d.output <;>
          simp [DWebP.RunWithContextSched, doneObserved, DWebP.RunWithContext,
            DWebP.setInput, hin, hif, hco]
  · cases hin : d.input with
    | some r =>
      cases hco : d.output <;>
        simp [DWebP.RunWithContextSched, doneObserved, DWebP.RunWithContext,
          DWebP.setInput, hin, hco]
    | none =>
      by_cases hif : d.inputFile = ("")
      · simp [DWebP.RunWithContextSched, doneObserved, DWebP.RunWithContext,
          DWebP.setInput, hin, hif]
      · cases hco : d.output <;>
          simp [DWebP.RunWithContextSched, doneObserved, DWebP.RunWithContext,
            DWebP.setInput, hin, hif, hco]
  · intro hd
    cases hin : d.input with
    | some r =>
      cases hco : d.output <;>
        simp [DWebP.RunWithContextSched, doneObserved, DWebP.RunWithContext,
          DWebP.setInput, hin, hco]
    | none =>
      by_cases hif : d.inputFile = ("")
      · simp [DWebP.RunWithContextSched, doneObserved, DWebP.RunWithContext,
          DWebP.setInput, hin, hif] at hd
      · cases hco : d.output <;>
          simp [DWebP.RunWithContextSched, doneObserved, DWebP.RunWithContext,
            DWebP.setInput, hin, hif, hco]
  · intro hd
    cases hin : d.input with
    | some r =>
      cases hco : d.output <;>
        simp [DWebP.RunWithContextSched, doneObserved, DWebP.RunWithContext,
          DWebP.setInput, hin, hco]
    | none =>
      by_cases hif : d.inputFile = ("")
      · simp [DWebP.RunWithContextSched, doneObserved, DWebP.RunWithContext,
          DWebP.setInput, hin, hif] at hd
      · cases hco : d.output <;>
          simp [DWebP.RunWithContextSched, doneObserved, DWebP.RunWithContext,
            DWebP.setInput, hin, hif, hco]

/-- Witness for C8 (amended): a configured DWebP run whose subprocess
fails after the cancellation was observed (close(done) before the
select) reports the cancellation error, not the stderr-carrying
execution error. -/
theorem cancellation_observed_preferred_witness :
    ((newDWebP.Input 7).RunWithContextSched
        (ExecOutcome.failure ("killed") ("some stderr")) true true
        ("context canceled") (fun _ => Except.ok 0)).res =
      Except.error (("operation cancelled: ") ++ ("context canceled")) :=
  (cancellation_observed_preferred (newDWebP.Input 7) ("killed")
    ("some stderr") ("x") ("y") ("context canceled") true true
    (fun _ => Except.ok 0)).1 (by decide)

/-- Helper: a DWebP run (context-aware variant) never returns an image
when an output writer or a non-empty output file is configured. -/
lemma dwebp_ctx_no_image_with_sink (d : DWebP) (ex : ExecOutcome)
    (dc : Bool) (cerr : String) (png : Bytes → Except String Img)
    (img : Img) (hns : ¬ (d.output = none ∧ d.outputFile = (""))) :
    ¬ ((d.RunWithContext ex dc cerr png).res = Except.ok (some img)) := by
  rcases hin : d.input with _ | r <;>
    rcases hco : d.output with _ | w <;>
    cases ex <;> cases dc <;>
    by_cases hif : d.inputFile = ("") <;>
    simp_all [DWebP.RunWithContext, DWebP.setInput]

/-- Helper: the historical context-free DWebP run never returns an
image when an output writer or a non-empty output file is
configured. -/
lemma dwebp_noctx_no_image_with_sink (d : DWebP) (ex : ExecOutcome)
    (png : Bytes → Except String Img) (img : Img)
    (hns : ¬ (d.output = none ∧ d.outputFile = (""))) :
    ¬ ((d.RunNoContext ex png).res = Except.ok (some img)) := by
  rcases hin : d.input with _ | r <;>
    rcases hco : d.output with _ | w <;>
    cases ex <;>
    by_cases hif : d.inputFile = ("") <;>
    simp_all [DWebP.RunNoContext, DWebP.setInputNoContext]

/-- C1: both DWebP.Run variants return a decoded in-memory image
exactly when neither an output file nor an output writer is set: with
no sink, a successful run PNG-decodes the captured stdout into the
returned image; with an explicit sink, a successful run returns (nil,
nil); and a returned image implies that no sink was set. -/
theorem dwebp_return_asymmetry
    (d : DWebP) (dc : Bool) (cerr : String)
    (png : Bytes → Except String Img) (out : Bytes) (img : Img) :
    ((d.output.isSome ∨ ¬ d.outputFile = ("")) →
      (d.RunWithContext (ExecOutcome.success out) dc cerr png).invoked.isSome →
      (d.RunWithContext (ExecOutcome.success out) dc cerr png).res =
        Except.ok none) ∧
    (d.output = none → d.outputFile = ("") → png out = Except.ok img →
      (d.RunWithContext (ExecOutcome.success out) dc cerr png).invoked.isSome →
      (d.RunWithContext (ExecOutcome.success out) dc cerr png).res =
        Except.ok (some img)) ∧
    (∀ ex : ExecOutcome,
      (d.RunWithContext ex dc cerr png).res = Except.ok (some img) →
      d.output = none ∧ d.outputFile = ("")) ∧
    ((d.output.isSome ∨ ¬ d.outputFile = ("")) →
      (d.RunNoContext (ExecOutcome.success out) png).invoked.isSome →
      (d.RunNoContext (ExecOutcome.success out) png).res = Except.ok none) ∧
    (d.output = none → d.outputFile = ("") → png out = Except.ok img →
      (d.RunNoContext (ExecOutcome.success out) png).invoked.isSome →
      (d.RunNoContext (ExecOutcome.success out) png).res =
        Except.ok (some img)) ∧
    (∀ ex : ExecOutcome,
      (d.RunNoContext ex png).res = Except.ok (some img) →
      d.output = none ∧ d.outputFile = ("")) := by
  refine ⟨?_, ?_, ?_, ?_, ?_, ?_⟩
  · intro hs hi
    rcases hco : d.output with _ | w
    · have hof : ¬ d.outputFile = ("") := by
        rcases hs with hs | hs
        · rw [hco] at hs
          exact absurd hs (by simp)
        · exact hs
      rcases hin : d.input with _ | r
      · by_cases hif : d.inputFile = ("")
        · simp [DWebP.RunWithContext, DWebP.setInput, hin, hif] at hi
        · simp [DWebP.RunWithContext, DWebP.setInput, hin, hif, hco, hof]
      · simp [DWebP.RunWithContext, DWebP.setInput, hin, hco, hof]
    · rcases hin : d.input with _ | r
      · by_cases hif : d.inputFile = ("")
        · simp [DWebP.RunWithContext, DWebP.setInput, hin, hif] at hi
        · simp [DWebP.RunWithContext, DWebP.setInput, hin, hif, hco]
      · simp [DWebP.RunWithContext, DWebP.setInput, hin, hco]
  · intro h1 h2 hpng hi
    rcases hin : d.input with _ | r
    · by_cases hif : d.inputFile = ("")
      · simp [DWebP.RunWithContext, DWebP.setInput, hin, hif] at hi
      · simp [DWebP.RunWithContext, DWebP.setInput, hin, hif, h1, h2, hpng]
    · simp [DWebP.RunWithContext, DWebP.setInput, hin, h1, h2, hpng]
  · intro ex hres
    by_cases hns : d.output = none ∧ d.outputFile = ("")
    · exact hns
    · exact absurd hres (dwebp_ctx_no_image_with_sink d ex dc cerr png img hns)
  · intro hs hi
    rcases hco : d.output with _ | w
    · have hof : ¬ d.outputFile = ("") := by
        rcases hs with hs | hs
        · rw [hco] at hs
          exact absurd hs (by simp)
        · exact hs
      rcases hin : d.input with _ | r
      · by_cases hif : d.inputFile = ("")
        · simp [DWebP.RunNoContext, DWebP.setInputNoContext, hin, hif] at hi
        · simp [DWebP.RunNoContext, DWebP.setInputNoContext, hin, hif, hco, hof]
      · simp [DWebP.RunNoContext, DWebP.setInputNoContext, hin, hco, hof]
    · rcases hin : d.input with _ | r
      · by_cases hif : d.inputFile = ("")
        · simp [DWebP.RunNoContext, DWebP.setInputNoContext, hin, hif] at hi
        · simp [DWebP.RunNoContext, DWebP.setInputNoContext, hin, hif, hco]
      · simp [DWebP.RunNoContext, DWebP.setInputNoContext, hin, hco]
  · intro h1 h2 hpng hi
    rcases hin : d.input with _ | r
    · by_cases hif : d.inputFile = ("")
      · simp [DWebP.RunNoContext, DWebP.setInputNoContext, hin, hif] at hi
      · simp [DWebP.RunNoContext, DWebP.setInputNoContext, hin, hif, h1, h2,
          hpng]
    · simp [DWebP.RunNoContext, DWebP.setInputNoContext, hin, h1, h2, hpng]
  · intro ex hres
    by_cases hns : d.output = none ∧ d.outputFile = ("")
    · exact hns
    · exact absurd hres (dwebp_noctx_no_image_with_sink d ex png img hns)

/-- Witness for C1: with no sink the decoded image 5 is returned; with
a writer sink the same successful run returns no image. -/
theorem dwebp_return_asymmetry_witness :
    ((newDWebP.Input 7).RunWithContext (ExecOutcome.success ([1])) false ("")
        (fun _ => Except.ok 5)).res = Except.ok (some 5) ∧
    (((newDWebP.Input 7).Output 9).RunWithContext (ExecOutcome.success ([1]))
        false ("") (fun _ => Except.ok 5)).res = Except.ok none :=
  ⟨(dwebp_return_asymmetry (newDWebP.Input 7) false ("")
      (fun _ => Except.ok 5) ([1]) 5).2.1 (by decide) (by decide) (by decide)
      (by decide),
   (dwebp_return_asymmetry ((newDWebP.Input 7).Output 9) false ("")
      (fun _ => Except.ok 5) ([1]) 5).1 (Or.inl (by decide)) (by decide)⟩

/-- C10 counterexample: an Encoder with Quality field 200 does not
pass a quality flag equal to its Quality field — the flag emitted is
the clamped -q 100. -/
theorem encoder_quality_flag_counterexample :
    ((Encoder.mk 200).EncodeWithContext 9 5 (fun _ => Except.ok 0)
        (ExecOutcome.success [])).invoked =
      some (["-q", "100", "-o", "-", "--", "-"]) ∧
    ¬ ((Encoder.mk 200).EncodeWithContext 9 5 (fun _ => Except.ok 0)
        (ExecOutcome.success [])).invoked =
      some (["-q", "200", "-o", "-", "--", "-"]) := by
  decide

/-- C10 amended: Encode/EncodeWithContext always passes an explicit
quality flag, equal to min(Quality, 100) — it never leaves quality
unset to fall back to the tool default; a zero-value Encoder emits -q
0 (not the documented default 75), and the package-level Encode
convenience function constructs an Encoder with Quality 75 and so
emits -q 75. -/
theorem encoder_always_passes_quality
    (e : Encoder) (w : Writer) (m : Img)
    (fI : Img → Except String Reader) (ex : ExecOutcome) (r : Reader)
    (hfi : fI m = Except.ok r) :
    (e.EncodeWithContext w m fI ex).invoked =
      some (["-q", toString (((min e.quality 100) : Nat) : Int),
        "-o", "-", "--", "-"]) ∧
    ((Encoder.mk 0).EncodeWithContext w m fI ex).invoked =
      some (["-q", ("0"), "-o", "-", "--", "-"]) ∧
    packageEncoder.quality = 75 ∧
    (packageEncode w m fI ex).invoked =
      some (["-q", ("75"), "-o", "-", "--", "-"]) := by
  have hmin : (if e.quality > 100 then 100 else e.quality) = min e.quality 100 := by
    split <;> omega
  have hpos : (((min e.quality 100 : Nat)) : Int) > -1 := by omega
  have hpos0 : (-1 : Int) < ((e.quality : Nat) : Int) := by omega
  refine ⟨?_, ?_, rfl, ?_⟩
  · cases ex <;>
      simp [Encoder.EncodeWithContext, CWebP.Run, CWebP.getOutput,
        CWebP.setInput, CWebP.Quality, CWebP.InputImage, CWebP.Output,
        newCWebP, BinWrapper.empty, BinWrapper.addArgs, BinWrapper.setStdIn,
        BinWrapper.setStdOut, hmin, hpos, hpos0, hfi]
  · cases ex <;>
      simp [Encoder.EncodeWithContext, CWebP.Run, CWebP.getOutput,
        CWebP.setInput, CWebP.Quality, CWebP.InputImage, CWebP.Output,
        newCWebP, BinWrapper.empty, BinWrapper.addArgs, BinWrapper.setStdIn,
        BinWrapper.setStdOut, hfi] <;> rfl
  · cases ex <;>
      simp [packageEncode, packageEncoder, Encoder.EncodeWithContext,
        CWebP.Run, CWebP.getOutput, CWebP.setInput, CWebP.Quality,
        CWebP.InputImage, CWebP.Output, newCWebP, BinWrapper.empty,
        BinWrapper.addArgs, BinWrapper.setStdIn, BinWrapper.setStdOut,
        hfi] <;> rfl

/-- Witness for C10 (amended) at Quality 80 and concrete
collaborators. -/
theorem encoder_always_passes_quality_witness :
    ((Encoder.mk 80).EncodeWithContext 9 5 (fun _ => Except.ok 0)
        (ExecOutcome.success [])).invoked =
      some (["-q", toString (((min 80 100 : Nat)) : Int),
        "-o", "-", "--", "-"]) :=
  (encoder_always_passes_quality (Encoder.mk 80) 9 5 (fun _ => Except.ok 0)
    (ExecOutcome.success []) 0 (by decide)).1

end GoWebpWrap
